import Mathlib

/-!
Shallow embedding of the `GeometryDashGame` physics/state engine of
`src/game.js` (repository MIS-project).  JavaScript numbers are modelled
as rationals (`ℚ`); the per-frame constants of the game are exact decimal
fractions so this is faithful for the arithmetic the claims exercise.
`Math.random()` outcomes are passed in as explicit parameters, and the
browser `localStorage` is modelled by an explicit `Store` value carried in
the game state.  A JavaScript number that may be `NaN` (the result of
`parseInt` on a non-numeric string) is modelled as `Option Int`, `none`
standing for `NaN`.
-/

namespace GeometryDash

/-- Game state enumeration: the string field `gameState` of game.js
(`"start" | "playing" | "dead" | "win"`). -/
inductive GState
  | start
  | playing
  | dead
  | win
deriving DecidableEq, Repr

/-- Model of the browser `localStorage` slot `geometryDashHighScore`:
either no value is stored, a string is stored, or every access throws
(storage unavailable). -/
inductive Store
  | absent
  | stored (s : String)
  | throwing
deriving DecidableEq, Repr

/-- Player record of game.js (constructor lines 20-32).  `jumpStartTime`
is never read by the engine and is omitted. -/
structure Player where
  x : ℚ
  y : ℚ
  width : ℚ
  height : ℚ
  velocityY : ℚ
  rotation : ℚ
  rotationSpeed : ℚ
  isJumping : Bool
  color : String
  groundY : ℚ
deriving DecidableEq, Repr

/-- Obstacle record pushed by `createLevel` (game.js lines 109-115). -/
structure Obstacle where
  x : ℚ
  y : ℚ
  width : ℚ
  height : ℚ
  color : String
deriving DecidableEq, Repr

/-- Platform record (`level.platforms` entries). -/
structure Platform where
  x : ℚ
  y : ℚ
  width : ℚ
  height : ℚ
deriving DecidableEq, Repr

/-- Spike record (`level.spikes` entries). -/
structure Spike where
  x : ℚ
  y : ℚ
  width : ℚ
  height : ℚ
deriving DecidableEq, Repr

/-- Level record of game.js (constructor lines 49-55, filled by
`createLevel`). -/
structure Level where
  width : ℚ
  groundHeight : ℚ
  obstacles : List Obstacle
  platforms : List Platform
  spikes : List Spike
deriving DecidableEq, Repr

/-- Particle record (trail particles, updateParticles lines 617-626;
death particles, die lines 975-984). -/
structure Particle where
  x : ℚ
  y : ℚ
  vx : ℚ
  vy : ℚ
  life : Int
  maxLife : Int
  size : ℚ
  color : String
deriving DecidableEq, Repr

/-- The mutable state of a `GeometryDashGame` instance.  The audio side
effects `playDeathSound` / `playJumpSound` are modelled by event
counters so that "no sound played" is expressible as state equality. -/
structure Game where
  gameState : GState
  cameraX : ℚ
  player : Player
  jumpHeld : Bool
  jumpHeldTime : ℚ
  level : Level
  particles : List Particle
  score : Int
  distance : Int
  highScore : Option Int
  store : Store
  deathSounds : Nat
  jumpSounds : Nat
deriving DecidableEq, Repr

/-- Constant scroll speed (game.js line 16). -/
def scrollSpeed : ℚ := 5

/-- Gravity per frame, `0.8` (game.js line 35). -/
def gravity : ℚ := 4/5

/-- Initial jump velocity, `-16` (game.js line 36). -/
def jumpPower : ℚ := -16

/-- Max milliseconds to hold jump, `300` (game.js line 37). -/
def maxJumpHold : ℚ := 300

/-- Additional velocity per frame while holding, `0.35` (game.js line 38). -/
def holdJumpBonus : ℚ := 7/20

/-- JavaScript comparison `a > b` where `b` may be `NaN` (modelled by
`none`): any comparison against `NaN` is false. -/
def numGt (a : Int) (b : Option Int) : Bool :=
  match b with
  | none => false
  | some m => decide (m < a)

/-- Value of a leading run of decimal digits; `none` when the run is
empty (the digit-scanning core of `parseInt(s, 10)`). -/
def digitsVal (cs : List Char) : Option Nat :=
  let ds := cs.takeWhile Char.isDigit
  if ds.isEmpty then none
  else some (ds.foldl (fun a c => a * 10 + (c.toNat - 48)) 0)

/-- Model of JavaScript `parseInt(s, 10)`: skip leading whitespace, read
an optional sign, then a maximal run of decimal digits; the result is
`NaN` (`none`) when no digit follows. -/
def jsParseInt (s : String) : Option Int :=
  let cs := s.toList.dropWhile
    (fun c => c.toNat = 32 ∨ c.toNat = 9 ∨ c.toNat = 10 ∨
              c.toNat = 13 ∨ c.toNat = 12 ∨ c.toNat = 11)
  match cs with
  | c :: rest =>
      if c.toNat = 45 then (digitsVal rest).map (fun n => -(n : Int))
      else if c.toNat = 43 then (digitsVal rest).map (fun n => (n : Int))
      else (digitsVal cs).map (fun n => (n : Int))
  | [] => none

/-- `loadHighScore` (game.js lines 1064-1071): returns `parseInt(stored, 10)`
when a non-empty string is stored, `0` when nothing is stored or the
stored string is empty (falsy), and `0` when storage access throws. -/
def loadHighScore (st : Store) : Option Int :=
  match st with
  | Store.throwing => some 0
  | Store.absent => some 0
  | Store.stored s => if s = "" then some 0 else jsParseInt s

/-- `saveHighScore` (game.js lines 1073-1079): writes `score.toString()`;
a throwing store swallows the failure and keeps no value. -/
def saveHighScore (st : Store) (n : Int) : Store :=
  match st with
  | Store.throwing => Store.throwing
  | _ => Store.stored (toString n)

/-- `checkCollision` (game.js lines 604-609): axis-aligned bounding box
test with strict inequalities on all four sides. -/
def checkCollision (x1 y1 w1 h1 x2 y2 w2 h2 : ℚ) : Bool :=
  decide (x1 < x2 + w2) &&
  decide (x1 + w1 > x2) &&
  decide (y1 < y2 + h2) &&
  decide (y1 + h1 > y2)

/-- `isOnGround` (game.js lines 468-488): ground test with tolerance 2,
then the platform loop (horizontal overlap, bottom edge within 5 of the
platform top, non-negative vertical velocity). -/
def isOnGround (g : Game) : Bool :=
  if g.player.y + g.player.height ≥ g.player.groundY - 2 then true
  else
    g.level.platforms.any (fun p =>
      let platformScreenX := p.x - g.cameraX
      decide (platformScreenX < g.player.x + g.player.width) &&
      decide (platformScreenX + p.width > g.player.x) &&
      decide (|g.player.y + g.player.height - p.y| < 5) &&
      decide (g.player.velocityY ≥ 0))

/-- Camera advance and score derivation, steps at game.js lines 497-499:
`cameraX += scrollSpeed; distance = Math.floor(cameraX / 10);
score = distance`. -/
def stepCamera (g : Game) : Game :=
  let cx := g.cameraX + scrollSpeed
  { g with cameraX := cx, distance := ⌊cx / 10⌋, score := ⌊cx / 10⌋ }

/-- Physics integration, game.js lines 502-503:
`velocityY += gravity; y += velocityY`. -/
def stepGravity (g : Game) : Game :=
  let v := g.player.velocityY + gravity
  { g with player := { g.player with velocityY := v, y := g.player.y + v } }

/-- Rotation update, game.js lines 506-517. -/
def stepRotation (g : Game) : Game :=
  if g.player.isJumping then
    let r := g.player.rotation + g.player.rotationSpeed
    let r := if r ≥ 360 then r - 360 else r
    { g with player := { g.player with rotation := r } }
  else
    let r := g.player.rotation + 5
    let r := if r ≥ 360 then r - 360 else r
    { g with player := { g.player with rotation := r } }

/-- Ground collision clamp, game.js lines 519-527 (the local `groundY`
computed there is unused; the comparison is against `player.groundY`). -/
def groundClamp (g : Game) : Game :=
  if g.player.y + g.player.height ≥ g.player.groundY then
    { g with player := { g.player with
        y := g.player.groundY, velocityY := 0,
        isJumping := false, rotationSpeed := 0 } }
  else g

/-- One iteration of the platform-collision loop body, game.js
lines 530-547. -/
def platformStep (g : Game) (p : Platform) : Game :=
  let platformScreenX := p.x - g.cameraX
  if platformScreenX < g.player.x + g.player.width ∧
     platformScreenX + p.width > g.player.x ∧
     g.player.y + g.player.height > p.y ∧
     g.player.y < p.y + p.height ∧
     g.player.velocityY > 0 then
    if g.player.y + g.player.height ≤ p.y + 10 then
      { g with player := { g.player with
          y := p.y - g.player.height, velocityY := 0,
          isJumping := false, rotationSpeed := 0 } }
    else g
  else g

/-- Platform collision resolution: the `for...of` loop over
`level.platforms` (game.js lines 530-547), processed in order. -/
def platformClamp (g : Game) : Game :=
  g.level.platforms.foldl platformStep g

/-- Ceiling collision, game.js lines 550-553. -/
def ceilingClamp (g : Game) : Game :=
  if g.player.y < 0 then
    { g with player := { g.player with y := 0, velocityY := 0 } }
  else g

/-- Steps (a)-(g) of the tick: camera advance, score derivation, physics
integration, rotation, ground clamp, platform resolution, ceiling clamp
(game.js lines 496-553), before any collision check of the frame. -/
def updatePhysics (g : Game) : Game :=
  ceilingClamp (platformClamp (groundClamp (stepRotation (stepGravity (stepCamera g)))))

/-- Obstacle collision scan, game.js lines 556-566: the player rectangle
against each obstacle projected to screen space. -/
def obstacleHit (g : Game) : Bool :=
  g.level.obstacles.any (fun o =>
    checkCollision g.player.x g.player.y g.player.width g.player.height
      (o.x - g.cameraX) o.y o.width o.height)

/-- Spike collision scan, game.js lines 569-579. -/
def spikeHit (g : Game) : Bool :=
  g.level.spikes.any (fun s =>
    checkCollision g.player.x g.player.y g.player.width g.player.height
      (s.x - g.cameraX) s.y s.width s.height)

/-- A death particle pushed by `die` (game.js lines 975-984); the triple
`t` carries the three `Math.random()`-derived quantities `vx`, `vy`,
`size` of one particle. -/
def mkDeathParticle (g : Game) (t : ℚ × ℚ × ℚ) : Particle :=
  { x := g.player.x + g.player.width / 2
    y := g.player.y + g.player.height / 2
    vx := t.1, vy := t.2.1, life := 30, maxLife := 30
    size := t.2.2, color := ("#ffffff") }

/-- `die` (game.js lines 967-994): no-op when already dead; otherwise
sets state to dead, plays the death sound, spawns 20 death particles
(randomness supplied by `r`), and commits the high score when
`score > highScore` (false when `highScore` is `NaN`). -/
def die (r : Nat → ℚ × ℚ × ℚ) (g : Game) : Game :=
  if g.gameState = GState.dead then g
  else
    let g1 := { g with gameState := GState.dead, deathSounds := g.deathSounds + 1 }
    let g2 := { g1 with
      particles := g1.particles ++ (List.range 20).map (fun i => mkDeathParticle g1 (r i)) }
    if numGt g2.score g2.highScore then
      { g2 with highScore := some g2.score, store := saveHighScore g2.store g2.score }
    else g2

/-- `win` (game.js lines 999-1005): sets state to win and commits the
high score under the same rule as `die`; it has no already-won guard. -/
def win (g : Game) : Game :=
  let g1 := { g with gameState := GState.win }
  if numGt g1.score g1.highScore then
    { g1 with highScore := some g1.score, store := saveHighScore g1.store g1.score }
  else g1

/-- The trail particle pushed by `updateParticles` (game.js
lines 617-626); `t` carries the random `vx`, `vy`, `size`. -/
def mkTrailParticle (g : Game) (t : ℚ × ℚ × ℚ) : Particle :=
  { x := g.player.x + g.player.width / 2
    y := g.player.y + g.player.height / 2
    vx := t.1, vy := t.2.1, life := 20, maxLife := 20
    size := t.2.2, color := g.player.color }

/-- Per-frame aging of one particle (game.js lines 630-636). -/
def ageParticle (p : Particle) : Particle :=
  { p with x := p.x + p.vx, y := p.y + p.vy, life := p.life - 1,
           vx := p.vx * (19/20), vy := p.vy * (19/20) }

/-- `updateParticles` (game.js lines 614-647): push a trail particle
while playing, age every particle, drop the expired ones, and cap the
list at the 50 most recent. -/
def updateParticles (t : ℚ × ℚ × ℚ) (g : Game) : Game :=
  let ps := if g.gameState = GState.playing
            then g.particles ++ [mkTrailParticle g t] else g.particles
  let ps2 := (ps.map ageParticle).filter (fun p => 0 < p.life)
  let ps3 := if 50 < ps2.length then ps2.drop (ps2.length - 50) else ps2
  { g with particles := ps3 }

/-- Randomness consumed by one tick: the death-particle burst (one
triple per particle) and the trail-particle triple. -/
structure Rand where
  death : Nat → ℚ × ℚ × ℚ
  trail : ℚ × ℚ × ℚ

/-- `update` (game.js lines 493-599), the per-frame tick: guard on
`playing`; physics steps (a)-(g); then, in source order, the obstacle
scan, the spike scan, the fall-off-screen check against the logical
canvas height `h`, and finally the win check; the first hit returns
early through `die`/`win`.  The parallax step mutates only background
decoration and is not part of the modelled state. -/
def update (h : ℚ) (r : Rand) (g : Game) : Game :=
  if g.gameState = GState.playing then
    let g1 := updatePhysics g
    if obstacleHit g1 then die r.death g1
    else if spikeHit g1 then die r.death g1
    else if g1.player.y > h then die r.death g1
    else if g1.cameraX ≥ g1.level.width then win g1
    else updateParticles r.trail g1
  else g

/-- `startGame` (game.js lines 946-962): no-op while playing; otherwise
resets camera, player kinematics, score, distance and particles and
transitions to playing. -/
def startGame (g : Game) : Game :=
  if g.gameState = GState.playing then g
  else
    let p := { g.player with y := g.player.groundY, velocityY := 0,
                             isJumping := false, rotation := 0 }
    { g with gameState := GState.playing, cameraX := 0, player := p,
             score := 0, distance := 0, particles := [] }

/-- `restart` (game.js lines 1010-1013): delegates to `startGame` (the
game-over screen handling is pure UI). -/
def restart (g : Game) : Game := startGame g

/-- `handleJumpStart` (game.js lines 422-455): start/restart dispatch,
then the grounded-jump impulse or the hold-bonus branch. -/
def handleJumpStart (g : Game) : Game :=
  if g.gameState = GState.start then startGame g
  else if g.gameState = GState.dead then restart g
  else if g.gameState ≠ GState.playing then g
  else if !g.player.isJumping && isOnGround g then
    let p := { g.player with velocityY := jumpPower,
                             isJumping := true, rotationSpeed := 15 }
    { g with player := p, jumpHeld := true, jumpHeldTime := 0,
             jumpSounds := g.jumpSounds + 1 }
  else if g.player.isJumping && g.jumpHeld then
    let t := g.jumpHeldTime + 1
    if t < maxJumpHold / 16 then
      let p := { g.player with velocityY := g.player.velocityY + holdJumpBonus }
      { g with jumpHeldTime := t, player := p }
    else { g with jumpHeldTime := t }
  else g

/-- `handleJumpEnd` (game.js lines 460-463). -/
def handleJumpEnd (g : Game) : Game :=
  { g with jumpHeld := false, jumpHeldTime := 0 }

/-- `createLevel` (game.js lines 94-184): sets the player ground rest
position from the logical canvas height `h`, then pushes the six
sections of obstacle blocks and sets the final level width; platforms
and spikes are never touched. -/
def createLevel (h : ℚ) (g : Game) : Game :=
  let groundY := h - g.level.groundHeight
  let p := { g.player with groundY := groundY - g.player.height,
                           y := groundY - g.player.height }
  let x0 : ℚ := 500
  let obs1 := (List.range 4).map (fun i =>
    ({ x := x0 + i * 120, y := groundY - 25, width := 35, height := 25,
       color := ("#d0d0d0") } : Obstacle))
  let x1 := x0 + 480
  let obs2 := (List.range 5).map (fun i =>
    ({ x := x1 + i * 100, y := groundY - 30, width := 40, height := 30,
       color := ("#b0b0b0") } : Obstacle))
  let x2 := x1 + 500
  let obs3 := (List.range 6).map (fun i =>
    ({ x := x2 + i * 90, y := groundY - (if i % 2 = 0 then 25 else 35),
       width := 35, height := if i % 2 = 0 then 25 else 35,
       color := ("#909090") } : Obstacle))
  let x3 := x2 + 540
  let obs4 := (List.range 8).map (fun i =>
    ({ x := x3 + i * 80, y := groundY - 30, width := 30, height := 30,
       color := ("#c0c0c0") } : Obstacle))
  let x4 := x3 + 640
  let obs5 := (List.range 7).map (fun i =>
    let m3 : ℕ := i % 3
    ({ x := x4 + i * 85, y := groundY - (20 + (m3 : ℚ) * 10),
       width := 35, height := 20 + (m3 : ℚ) * 10,
       color := ("#a0a0a0") } : Obstacle))
  let x5 := x4 + 595
  let obs6 := (List.range 10).map (fun i =>
    ({ x := x5 + i * 70, y := groundY - 28, width := 32, height := 28,
       color := ("#e0e0e0") } : Obstacle))
  let x6 := x5 + 700
  { g with player := p,
           level := { g.level with
             obstacles := g.level.obstacles ++ obs1 ++ obs2 ++ obs3 ++
                          obs4 ++ obs5 ++ obs6,
             width := x6 + 300 } }

/-- `resizeCanvas` (game.js lines 323-353), state-relevant part:
recompute `player.groundY` from the new logical height and re-rest the
player when in start or dead state. -/
def resizeCanvas (h : ℚ) (g : Game) : Game :=
  let groundY := h - g.level.groundHeight
  let p := { g.player with groundY := groundY - g.player.height }
  let p := if g.gameState = GState.start ∨ g.gameState = GState.dead
           then { p with y := p.groundY } else p
  { g with player := p }

/-- The game state built by the `GeometryDashGame` constructor
(game.js lines 7-89) for logical canvas height `h` and store content
`st`: the field initialisers followed by `createLevel`. -/
def initGame (h : ℚ) (st : Store) : Game :=
  createLevel h
    { gameState := GState.start, cameraX := 0,
      player := { x := 100, y := 0, width := 30, height := 30, velocityY := 0,
                  rotation := 0, rotationSpeed := 0, isJumping := false,
                  color := ("#ffffff"), groundY := 0 },
      jumpHeld := false, jumpHeldTime := 0,
      level := { width := 8000, groundHeight := 50, obstacles := [],
                 platforms := [], spikes := [] },
      particles := [], score := 0, distance := 0,
      highScore := loadHighScore st, store := st,
      deathSounds := 0, jumpSounds := 0 }

/-- States reachable from a fresh instance through the engine entry
points (tick, input intents, death, win, start, restart, resize). -/
inductive Reachable : Game → Prop
  | init (h : ℚ) (st : Store) : Reachable (initGame h st)
  | tick (h : ℚ) (r : Rand) {g : Game} : Reachable g → Reachable (update h r g)
  | jumpStart {g : Game} : Reachable g → Reachable (handleJumpStart g)
  | jumpEnd {g : Game} : Reachable g → Reachable (handleJumpEnd g)
  | died (r : Nat → ℚ × ℚ × ℚ) {g : Game} : Reachable g → Reachable (die r g)
  | won {g : Game} : Reachable g → Reachable (win g)
  | started {g : Game} : Reachable g → Reachable (startGame g)
  | restarted {g : Game} : Reachable g → Reachable (restart g)
  | resized (h : ℚ) {g : Game} : Reachable g → Reachable (resizeCanvas h g)

/-- Source-level scope model for claim C1: the `const` declarations
appearing directly in the function-body block scope of `update`
(game.js lines 493-599), as (line number, identifier) pairs. -/
def updateScopeConstDecls : List (Nat × String) :=
  [(520, "logicalHeight"), (521, "groundY"), (582, "logicalHeight")]

/-- ECMAScript early-error rule for lexical declarations: a function
body parses only if no `const` name is declared twice in the same block
scope (duplicate lexical declarations are a SyntaxError). -/
def lexicalDeclsParse (decls : List (Nat × String)) : Prop :=
  List.Nodup (decls.map Prod.snd)


/-! Projection lemmas: which fields each stage of the tick leaves
unchanged, read off the structure updates above. -/

@[simp] lemma stepCamera_player (g : Game) : (stepCamera g).player = g.player := rfl

@[simp] lemma stepCamera_level (g : Game) : (stepCamera g).level = g.level := rfl

@[simp] lemma stepCamera_gameState (g : Game) : (stepCamera g).gameState = g.gameState := rfl

@[simp] lemma stepCamera_cameraX (g : Game) : (stepCamera g).cameraX = g.cameraX + scrollSpeed := rfl

@[simp] lemma stepCamera_distance (g : Game) : (stepCamera g).distance = ⌊(g.cameraX + scrollSpeed) / 10⌋ := rfl

@[simp] lemma stepCamera_score (g : Game) : (stepCamera g).score = ⌊(g.cameraX + scrollSpeed) / 10⌋ := rfl

@[simp] lemma stepGravity_cameraX (g : Game) : (stepGravity g).cameraX = g.cameraX := rfl

@[simp] lemma stepGravity_level (g : Game) : (stepGravity g).level = g.level := rfl

@[simp] lemma stepGravity_gameState (g : Game) : (stepGravity g).gameState = g.gameState := rfl

@[simp] lemma stepGravity_distance (g : Game) : (stepGravity g).distance = g.distance := rfl

@[simp] lemma stepGravity_score (g : Game) : (stepGravity g).score = g.score := rfl

@[simp] lemma stepGravity_height (g : Game) : (stepGravity g).player.height = g.player.height := rfl

@[simp] lemma stepGravity_groundY (g : Game) : (stepGravity g).player.groundY = g.player.groundY := rfl

@[simp] lemma stepRotation_cameraX (g : Game) : (stepRotation g).cameraX = g.cameraX := by
  unfold stepRotation; split <;> rfl

@[simp] lemma stepRotation_level (g : Game) : (stepRotation g).level = g.level := by
  unfold stepRotation; split <;> rfl

@[simp] lemma stepRotation_gameState (g : Game) : (stepRotation g).gameState = g.gameState := by
  unfold stepRotation; split <;> rfl

@[simp] lemma stepRotation_distance (g : Game) : (stepRotation g).distance = g.distance := by
  unfold stepRotation; split <;> rfl

@[simp] lemma stepRotation_score (g : Game) : (stepRotation g).score = g.score := by
  unfold stepRotation; split <;> rfl

@[simp] lemma stepRotation_y (g : Game) : (stepRotation g).player.y = g.player.y := by
  unfold stepRotation; split <;> rfl

@[simp] lemma stepRotation_height (g : Game) : (stepRotation g).player.height = g.player.height := by
  unfold stepRotation; split <;> rfl

@[simp] lemma stepRotation_groundY (g : Game) : (stepRotation g).player.groundY = g.player.groundY := by
  unfold stepRotation; split <;> rfl

@[simp] lemma groundClamp_cameraX (g : Game) : (groundClamp g).cameraX = g.cameraX := by
  unfold groundClamp; split <;> rfl

@[simp] lemma groundClamp_level (g : Game) : (groundClamp g).level = g.level := by
  unfold groundClamp; split <;> rfl

@[simp] lemma groundClamp_gameState (g : Game) : (groundClamp g).gameState = g.gameState := by
  unfold groundClamp; split <;> rfl

@[simp] lemma groundClamp_distance (g : Game) : (groundClamp g).distance = g.distance := by
  unfold groundClamp; split <;> rfl

@[simp] lemma groundClamp_score (g : Game) : (groundClamp g).score = g.score := by
  unfold groundClamp; split <;> rfl

@[simp] lemma groundClamp_height (g : Game) : (groundClamp g).player.height = g.player.height := by
  unfold groundClamp; split <;> rfl

@[simp] lemma groundClamp_groundY (g : Game) : (groundClamp g).player.groundY = g.player.groundY := by
  unfold groundClamp; split <;> rfl

lemma platformStep_proj (g : Game) (p : Platform) :
    (platformStep g p).cameraX = g.cameraX ∧
    (platformStep g p).level = g.level ∧
    (platformStep g p).gameState = g.gameState ∧
    (platformStep g p).score = g.score ∧
    (platformStep g p).distance = g.distance ∧
    (platformStep g p).player.height = g.player.height ∧
    (platformStep g p).player.groundY = g.player.groundY := by
  simp only [platformStep]
  split
  · split
    all_goals exact ⟨rfl, rfl, rfl, rfl, rfl, rfl, rfl⟩
  · exact ⟨rfl, rfl, rfl, rfl, rfl, rfl, rfl⟩

lemma foldl_platformStep_proj (l : List Platform) :
    ∀ g : Game,
      (l.foldl platformStep g).cameraX = g.cameraX ∧
      (l.foldl platformStep g).level = g.level ∧
      (l.foldl platformStep g).gameState = g.gameState ∧
      (l.foldl platformStep g).score = g.score ∧
      (l.foldl platformStep g).distance = g.distance ∧
      (l.foldl platformStep g).player.height = g.player.height ∧
      (l.foldl platformStep g).player.groundY = g.player.groundY := by
  induction l with
  | nil => intro g; exact ⟨rfl, rfl, rfl, rfl, rfl, rfl, rfl⟩
  | cons p t ih =>
      intro g
      obtain ⟨a1, a2, a3, a4, a5, a6, a7⟩ := platformStep_proj g p
      obtain ⟨b1, b2, b3, b4, b5, b6, b7⟩ := ih (platformStep g p)
      simp only [List.foldl_cons]
      exact ⟨b1.trans a1, b2.trans a2, b3.trans a3, b4.trans a4,
             b5.trans a5, b6.trans a6, b7.trans a7⟩

@[simp] lemma platformClamp_cameraX (g : Game) : (platformClamp g).cameraX = g.cameraX :=
  (foldl_platformStep_proj g.level.platforms g).1

@[simp] lemma platformClamp_level (g : Game) : (platformClamp g).level = g.level :=
  (foldl_platformStep_proj g.level.platforms g).2.1

@[simp] lemma platformClamp_gameState (g : Game) : (platformClamp g).gameState = g.gameState :=
  (foldl_platformStep_proj g.level.platforms g).2.2.1

@[simp] lemma platformClamp_score (g : Game) : (platformClamp g).score = g.score :=
  (foldl_platformStep_proj g.level.platforms g).2.2.2.1

@[simp] lemma platformClamp_distance (g : Game) : (platformClamp g).distance = g.distance :=
  (foldl_platformStep_proj g.level.platforms g).2.2.2.2.1

@[simp] lemma platformClamp_height (g : Game) : (platformClamp g).player.height = g.player.height :=
  (foldl_platformStep_proj g.level.platforms g).2.2.2.2.2.1

@[simp] lemma platformClamp_groundY (g : Game) : (platformClamp g).player.groundY = g.player.groundY :=
  (foldl_platformStep_proj g.level.platforms g).2.2.2.2.2.2

@[simp] lemma ceilingClamp_cameraX (g : Game) : (ceilingClamp g).cameraX = g.cameraX := by
  unfold ceilingClamp; split <;> rfl

@[simp] lemma ceilingClamp_level (g : Game) : (ceilingClamp g).level = g.level := by
  unfold ceilingClamp; split <;> rfl

@[simp] lemma ceilingClamp_gameState (g : Game) : (ceilingClamp g).gameState = g.gameState := by
  unfold ceilingClamp; split <;> rfl

@[simp] lemma ceilingClamp_distance (g : Game) : (ceilingClamp g).distance = g.distance := by
  unfold ceilingClamp; split <;> rfl

@[simp] lemma ceilingClamp_score (g : Game) : (ceilingClamp g).score = g.score := by
  unfold ceilingClamp; split <;> rfl

@[simp] lemma ceilingClamp_height (g : Game) : (ceilingClamp g).player.height = g.player.height := by
  unfold ceilingClamp; split <;> rfl

@[simp] lemma ceilingClamp_groundY (g : Game) : (ceilingClamp g).player.groundY = g.player.groundY := by
  unfold ceilingClamp; split <;> rfl

@[simp] lemma updatePhysics_cameraX (g : Game) :
    (updatePhysics g).cameraX = g.cameraX + scrollSpeed := by
  unfold updatePhysics; simp

@[simp] lemma updatePhysics_level (g : Game) : (updatePhysics g).level = g.level := by
  unfold updatePhysics; simp

@[simp] lemma updatePhysics_gameState (g : Game) : (updatePhysics g).gameState = g.gameState := by
  unfold updatePhysics; simp

@[simp] lemma updatePhysics_distance (g : Game) :
    (updatePhysics g).distance = ⌊(g.cameraX + scrollSpeed) / 10⌋ := by
  unfold updatePhysics; simp

@[simp] lemma updatePhysics_score (g : Game) :
    (updatePhysics g).score = ⌊(g.cameraX + scrollSpeed) / 10⌋ := by
  unfold updatePhysics; simp

@[simp] lemma updatePhysics_height (g : Game) :
    (updatePhysics g).player.height = g.player.height := by
  unfold updatePhysics; simp

@[simp] lemma updatePhysics_groundY (g : Game) :
    (updatePhysics g).player.groundY = g.player.groundY := by
  unfold updatePhysics; simp

@[simp] lemma die_cameraX (r : Nat → ℚ × ℚ × ℚ) (g : Game) : (die r g).cameraX = g.cameraX := by
  simp only [die]; split
  · rfl
  · split <;> rfl

@[simp] lemma die_level (r : Nat → ℚ × ℚ × ℚ) (g : Game) : (die r g).level = g.level := by
  simp only [die]; split
  · rfl
  · split <;> rfl

@[simp] lemma die_score (r : Nat → ℚ × ℚ × ℚ) (g : Game) : (die r g).score = g.score := by
  simp only [die]; split
  · rfl
  · split <;> rfl

@[simp] lemma die_distance (r : Nat → ℚ × ℚ × ℚ) (g : Game) : (die r g).distance = g.distance := by
  simp only [die]; split
  · rfl
  · split <;> rfl

lemma die_gameState (r : Nat → ℚ × ℚ × ℚ) (g : Game) (h : g.gameState ≠ GState.dead) :
    (die r g).gameState = GState.dead := by
  simp only [die]; split
  · simp_all
  · split <;> rfl

@[simp] lemma win_cameraX (g : Game) : (win g).cameraX = g.cameraX := by
  simp only [win]; split <;> rfl

@[simp] lemma win_level (g : Game) : (win g).level = g.level := by
  simp only [win]; split <;> rfl

@[simp] lemma win_score (g : Game) : (win g).score = g.score := by
  simp only [win]; split <;> rfl

@[simp] lemma win_distance (g : Game) : (win g).distance = g.distance := by
  simp only [win]; split <;> rfl

@[simp] lemma win_gameState (g : Game) : (win g).gameState = GState.win := by
  simp only [win]; split <;> rfl

@[simp] lemma updateParticles_cameraX (t : ℚ × ℚ × ℚ) (g : Game) :
    (updateParticles t g).cameraX = g.cameraX := by
  simp only [updateParticles]

@[simp] lemma updateParticles_level (t : ℚ × ℚ × ℚ) (g : Game) :
    (updateParticles t g).level = g.level := by
  simp only [updateParticles]

@[simp] lemma updateParticles_score (t : ℚ × ℚ × ℚ) (g : Game) :
    (updateParticles t g).score = g.score := by
  simp only [updateParticles]

@[simp] lemma updateParticles_distance (t : ℚ × ℚ × ℚ) (g : Game) :
    (updateParticles t g).distance = g.distance := by
  simp only [updateParticles]

@[simp] lemma updateParticles_gameState (t : ℚ × ℚ × ℚ) (g : Game) :
    (updateParticles t g).gameState = g.gameState := by
  simp only [updateParticles]

@[simp] lemma startGame_level (g : Game) : (startGame g).level = g.level := by
  unfold startGame; split <;> rfl

@[simp] lemma handleJumpEnd_level (g : Game) : (handleJumpEnd g).level = g.level := rfl

@[simp] lemma resizeCanvas_level (h : ℚ) (g : Game) : (resizeCanvas h g).level = g.level := rfl

@[simp] lemma update_level_eq (h : ℚ) (r : Rand) (g : Game) : (update h r g).level = g.level := by
  simp only [update]
  split
  · split
    · simp
    · split
      · simp
      · split
        · simp
        · split <;> simp
  · rfl

@[simp] lemma handleJumpStart_level (g : Game) : (handleJumpStart g).level = g.level := by
  simp only [handleJumpStart, restart]
  split_ifs <;> simp

/-! Concrete states used by counterexamples and witnesses. -/

/-- A player resting on the ground of a 600px-high canvas
(`groundY = 600 - 50 - 30 = 520`), as `createLevel` sets it up. -/
def pl0 : Player :=
  { x := 100, y := 520, width := 30, height := 30, velocityY := 0,
    rotation := 0, rotationSpeed := 0, isJumping := false,
    color := ("#ffffff"), groundY := 520 }

/-- An empty level of the constructor dimensions. -/
def lvl0 : Level :=
  { width := 8000, groundHeight := 50, obstacles := [], platforms := [],
    spikes := [] }

/-- A playing state with the player at rest on the ground and an empty
level. -/
def gBase : Game :=
  { gameState := GState.playing, cameraX := 0, player := pl0,
    jumpHeld := false, jumpHeldTime := 0, level := lvl0,
    particles := [], score := 0, distance := 0,
    highScore := some 0, store := Store.absent,
    deathSounds := 0, jumpSounds := 0 }

/-- A fixed choice of per-tick randomness. -/
def r0 : Rand := { death := fun _ => (0, 0, 5), trail := (0, 0, 3) }

/-- C1: the function-body scope of `update` declares the `const` name
`logicalHeight` at line 520 and again at line 582; by the ECMAScript
duplicate-lexical-declaration early-error rule this scope does not
parse (a SyntaxError), so game.js fails to load as written. -/
theorem update_redeclares_logicalHeight :
    (520, "logicalHeight") ∈ updateScopeConstDecls ∧
    (582, "logicalHeight") ∈ updateScopeConstDecls ∧
    ¬ lexicalDeclsParse updateScopeConstDecls :=
  ⟨by decide, by decide, by unfold lexicalDeclsParse updateScopeConstDecls; decide⟩

/-- C3 counterexample: with the corrupted stored string `"abc"`,
`loadHighScore` returns `parseInt("abc", 10) = NaN` (modelled `none`),
not an integer — refuting "never returns a non-integer" and "a
corrupted (non-numeric) stored string still yields a valid integer". -/
theorem loadHighScore_nan_on_corrupted :
    loadHighScore (Store.stored ("abc")) = none := by decide

/-- C3 amended: `loadHighScore` returns the integer 0 when no value is
stored, when the stored string is empty, or when store access throws,
and never propagates an exception (it is a total function); but a
stored non-empty string on which `parseInt` finds no digits yields
`NaN` (`none`) rather than an integer. -/
theorem loadHighScore_amended (s : String) (hne : s ≠ "") (hnan : jsParseInt s = none) :
    loadHighScore Store.absent = some 0 ∧
    loadHighScore Store.throwing = some 0 ∧
    loadHighScore (Store.stored ("")) = some 0 ∧
    loadHighScore (Store.stored s) = none := by
  refine ⟨rfl, rfl, rfl, ?_⟩
  simp only [loadHighScore]
  rw [if_neg hne]
  exact hnan

/-- Witness for the amended C3 at the concrete stored string `"xyz"`. -/
theorem loadHighScore_amended_witness :
    ("xyz" : String) ≠ "" ∧ jsParseInt ("xyz") = none ∧
    (loadHighScore Store.absent = some 0 ∧
     loadHighScore Store.throwing = some 0 ∧
     loadHighScore (Store.stored ("")) = some 0 ∧
     loadHighScore (Store.stored ("xyz")) = none) :=
  ⟨by decide, by decide, loadHighScore_amended ("xyz") (by decide) (by decide)⟩

/-- C6: `checkCollision` returns true exactly when the two rectangles
strictly overlap on both axes, and rectangles merely touching along an
edge (here `a1 + c1 = a2`, the first rectangle ending where the second
begins) are not reported as colliding. -/
theorem checkCollision_strict_overlap
    (x1 y1 w1 h1 x2 y2 w2 h2 a1 b1 c1 d1 a2 b2 c2 d2 : ℚ)
    (ht : a1 + c1 = a2) :
    (checkCollision x1 y1 w1 h1 x2 y2 w2 h2 = true ↔
      (x1 < x2 + w2 ∧ x2 < x1 + w1 ∧ y1 < y2 + h2 ∧ y2 < y1 + h1)) ∧
    checkCollision a1 b1 c1 d1 a2 b2 c2 d2 = false := by
  constructor
  · simp [checkCollision, and_assoc]
  · simp [checkCollision, ht]

/-- Witness for C6: strictly overlapping rectangles collide, and the
touching pair `[0,5] x [0,5]` against `[5,10] x [0,5]` does not. -/
theorem checkCollision_strict_overlap_witness :
    ((0:ℚ) + 5 = 5) ∧
    ((checkCollision 0 0 5 5 4 4 2 2 = true ↔
      ((0:ℚ) < 4 + 2 ∧ (4:ℚ) < 0 + 5 ∧ (0:ℚ) < 4 + 2 ∧ (4:ℚ) < 0 + 5)) ∧
     checkCollision 0 0 5 5 5 0 5 5 = false) :=
  ⟨by norm_num, checkCollision_strict_overlap 0 0 5 5 4 4 2 2 0 0 5 5 5 0 5 5 (by norm_num)⟩

/-- C7: while playing, grounded and not already jumping,
`handleJumpStart` sets the vertical velocity to exactly the configured
jump power constant, which is strictly negative, and marks the player
as jumping. -/
theorem jump_impulse (g : Game) (h1 : g.gameState = GState.playing)
    (h2 : isOnGround g = true) (h3 : g.player.isJumping = false) :
    (handleJumpStart g).player.velocityY = jumpPower ∧ jumpPower < 0 ∧
    (handleJumpStart g).player.isJumping = true := by
  refine ⟨?_, by norm_num [jumpPower], ?_⟩ <;>
    simp [handleJumpStart, h1, h2, h3]

/-- Witness for C7 at the concrete grounded playing state `gBase`. -/
theorem jump_impulse_witness :
    gBase.gameState = GState.playing ∧ isOnGround gBase = true ∧
    gBase.player.isJumping = false ∧
    ((handleJumpStart gBase).player.velocityY = jumpPower ∧ jumpPower < 0 ∧
     (handleJumpStart gBase).player.isJumping = true) :=
  ⟨rfl, by norm_num [isOnGround, gBase, pl0, lvl0], rfl,
   jump_impulse gBase rfl (by norm_num [isOnGround, gBase, pl0, lvl0]) rfl⟩

/-- C8: `die` is idempotent: in a state that is already dead it returns
the state unchanged (no particles spawned, no store write, no sound
counter increment, no high-score change), and the tick `update` is a
guard-protected no-op in that state, so the death side effects cannot
re-trigger on subsequent frames. -/
theorem die_idempotent_when_dead (hq : ℚ) (r : Nat → ℚ × ℚ × ℚ) (rr : Rand)
    (g : Game) (h : g.gameState = GState.dead) :
    die r g = g ∧ update hq rr g = g := by
  constructor
  · simp [die, h]
  · simp [update, h]

/-- Witness for C8 at the concrete dead state. -/
theorem die_idempotent_when_dead_witness :
    ({ gBase with gameState := GState.dead } : Game).gameState = GState.dead ∧
    (die r0.death { gBase with gameState := GState.dead } =
      { gBase with gameState := GState.dead } ∧
     update 600 r0 { gBase with gameState := GState.dead } =
      { gBase with gameState := GState.dead }) :=
  ⟨rfl, die_idempotent_when_dead 600 r0.death r0 { gBase with gameState := GState.dead } rfl⟩

/-- C4: the high-score commit of `die` and `win`.  When the current
score strictly exceeds the previously stored high score `hs`, the value
written to the (functioning) store is the current score, i.e. the store
holds `max hs score`; when the score does not exceed it, neither the
store nor the in-memory high score is touched.  `g` is a state whose
run exceeds its high score, `gle` one whose run does not. -/
theorem highScore_commit_rule (r : Nat → ℚ × ℚ × ℚ) (g gle : Game) (hs hsle : Int)
    (hg1 : g.gameState ≠ GState.dead) (hg2 : g.highScore = some hs)
    (hg3 : hs < g.score) (hg4 : g.store ≠ Store.throwing)
    (hl1 : gle.gameState ≠ GState.dead) (hl2 : gle.highScore = some hsle)
    (hl3 : gle.score ≤ hsle) :
    ((die r g).store = Store.stored (toString (max hs g.score)) ∧
     (die r g).highScore = some g.score) ∧
    ((win g).store = Store.stored (toString (max hs g.score)) ∧
     (win g).highScore = some g.score) ∧
    ((die r gle).store = gle.store ∧ (die r gle).highScore = gle.highScore) ∧
    ((win gle).store = gle.store ∧ (win gle).highScore = gle.highScore) := by
  have hgt : numGt g.score g.highScore = true := by
    rw [hg2]; simp only [numGt, decide_eq_true_eq]; exact hg3
  have hng : numGt gle.score gle.highScore = false := by
    rw [hl2]; simp only [numGt, decide_eq_false_iff_not, not_lt]; exact hl3
  have hmax : max hs g.score = g.score := max_eq_right hg3.le
  have hsave : saveHighScore g.store g.score = Store.stored (toString g.score) := by
    cases hst : g.store with
    | throwing => exact absurd hst hg4
    | absent => simp [saveHighScore]
    | stored s => simp [saveHighScore]
  rw [hmax]
  refine ⟨⟨?_, ?_⟩, ⟨?_, ?_⟩, ⟨?_, ?_⟩, ⟨?_, ?_⟩⟩ <;>
    simp [die, win, hg1, hl1, hgt, hng, hsave]

/-- A playing state whose run (score 10) exceeds its stored high
score 3. -/
def g4hi : Game :=
  { gBase with score := 10, highScore := some 3, store := Store.stored ("3") }

/-- A playing state whose run (score 2) does not reach its stored high
score 3. -/
def g4lo : Game :=
  { gBase with score := 2, highScore := some 3 }

/-- Witness for C4: a run of score 10 against stored high score 3
commits 10; a run of score 2 against stored high score 3 leaves the
store untouched. -/
theorem highScore_commit_rule_witness :
    g4hi.gameState ≠ GState.dead ∧
    (((die r0.death g4hi).store = Store.stored (toString (max 3 (10:Int))) ∧
      (die r0.death g4hi).highScore = some 10) ∧
     ((win g4hi).store = Store.stored (toString (max 3 (10:Int))) ∧
      (win g4hi).highScore = some 10) ∧
     ((die r0.death g4lo).store = g4lo.store ∧
      (die r0.death g4lo).highScore = g4lo.highScore) ∧
     ((win g4lo).store = g4lo.store ∧
      (win g4lo).highScore = g4lo.highScore)) :=
  ⟨by simp [g4hi, gBase], highScore_commit_rule r0.death g4hi g4lo 3 3
    (by simp [g4hi, gBase]) rfl (by norm_num [g4hi, gBase]) (by simp [g4hi, gBase])
    (by simp [g4lo, gBase]) rfl (by norm_num [g4lo, gBase])⟩

/-- C5: every tick in the playing state advances `cameraX` by exactly
the scroll-speed constant 5 (hence `cameraX` is non-decreasing across
playing frames, whatever branch the tick then takes), and immediately
derives `distance = floor(cameraX / 10)` and `score = distance` from
the advanced camera. -/
theorem camera_advance_per_tick (hq : ℚ) (r : Rand) (g : Game)
    (h1 : g.gameState = GState.playing) :
    (update hq r g).cameraX = g.cameraX + scrollSpeed ∧
    scrollSpeed = 5 ∧
    g.cameraX ≤ (update hq r g).cameraX ∧
    (update hq r g).distance = ⌊(update hq r g).cameraX / 10⌋ ∧
    (update hq r g).score = (update hq r g).distance := by
  have hc : (update hq r g).cameraX = g.cameraX + scrollSpeed := by
    simp only [update]
    rw [if_pos h1]
    split_ifs <;> simp
  have hd : (update hq r g).distance = ⌊(g.cameraX + scrollSpeed) / 10⌋ := by
    simp only [update]
    rw [if_pos h1]
    split_ifs <;> simp
  have hsc : (update hq r g).score = ⌊(g.cameraX + scrollSpeed) / 10⌋ := by
    simp only [update]
    rw [if_pos h1]
    split_ifs <;> simp
  refine ⟨hc, rfl, ?_, ?_, ?_⟩
  · rw [hc]
    have h5 : (0:ℚ) ≤ scrollSpeed := by norm_num [scrollSpeed]
    linarith
  · rw [hd, hc]
  · rw [hsc, hd]

/-- Witness for C5 at the concrete playing state `gBase`
(`cameraX` goes from 0 to 5, `distance = floor(5/10) = 0`). -/
theorem camera_advance_per_tick_witness :
    gBase.gameState = GState.playing ∧
    ((update 600 r0 gBase).cameraX = gBase.cameraX + scrollSpeed ∧
     scrollSpeed = 5 ∧
     gBase.cameraX ≤ (update 600 r0 gBase).cameraX ∧
     (update 600 r0 gBase).distance = ⌊(update 600 r0 gBase).cameraX / 10⌋ ∧
     (update 600 r0 gBase).score = (update 600 r0 gBase).distance) :=
  ⟨rfl, camera_advance_per_tick 600 r0 gBase rfl⟩

/-- With no platforms the platform-resolution loop of the tick is the
identity: its body never executes. -/
lemma platformClamp_of_no_platforms (g : Game) (h : g.level.platforms = []) :
    platformClamp g = g := by
  unfold platformClamp
  rw [h]
  rfl

/-- With no spikes the spike collision scan finds nothing. -/
lemma spikeHit_of_no_spikes (g : Game) (h : g.level.spikes = []) :
    spikeHit g = false := by
  unfold spikeHit
  rw [h]
  rfl

/-- With no platforms `isOnGround` degenerates to the ground test: the
platform branch never executes. -/
lemma isOnGround_of_no_platforms (g : Game) (h : g.level.platforms = []) :
    isOnGround g = decide (g.player.groundY - 2 ≤ g.player.y + g.player.height) := by
  unfold isOnGround
  rw [h]
  by_cases hc : g.player.y + g.player.height ≥ g.player.groundY - 2
  · rw [if_pos hc]
    exact (decide_eq_true hc).symm
  · rw [if_neg hc]
    simp [hc]

/-- Every reachable state keeps the constructor-time emptiness of
`level.platforms` and `level.spikes`: no engine operation ever appends
to them. -/
lemma reachable_level_empty {g : Game} (hr : Reachable g) :
    g.level.platforms = [] ∧ g.level.spikes = [] := by
  induction hr with
  | init h st => exact ⟨rfl, rfl⟩
  | tick h r _ ih => simpa only [update_level_eq] using ih
  | jumpStart _ ih => simpa only [handleJumpStart_level] using ih
  | jumpEnd _ ih => simpa only [handleJumpEnd_level] using ih
  | died r _ ih => simpa only [die_level] using ih
  | won _ ih => simpa only [win_level] using ih
  | started _ ih => simpa only [startGame_level] using ih
  | restarted _ ih => simpa only [restart, startGame_level] using ih
  | resized h _ ih => simpa only [resizeCanvas_level] using ih

/-- C9: the level never contains platforms or spikes — `createLevel`
leaves both lists empty and no reachable operation appends to them — so
the platform-landing resolution of the tick is the identity, the spike
scan never hits, and `isOnGround` reduces to the plain ground test. -/
theorem level_never_has_platforms_or_spikes (g : Game) (hr : Reachable g) :
    g.level.platforms = [] ∧ g.level.spikes = [] ∧
    platformClamp g = g ∧ spikeHit g = false ∧
    isOnGround g = decide (g.player.groundY - 2 ≤ g.player.y + g.player.height) := by
  obtain ⟨hp, hs⟩ := reachable_level_empty hr
  exact ⟨hp, hs, platformClamp_of_no_platforms g hp, spikeHit_of_no_spikes g hs,
         isOnGround_of_no_platforms g hp⟩

/-- Witness for C9 at the freshly constructed instance. -/
theorem level_never_has_platforms_or_spikes_witness :
    (initGame 600 Store.absent).level.platforms = [] ∧
    (initGame 600 Store.absent).level.spikes = [] ∧
    platformClamp (initGame 600 Store.absent) = initGame 600 Store.absent ∧
    spikeHit (initGame 600 Store.absent) = false ∧
    isOnGround (initGame 600 Store.absent) =
      decide ((initGame 600 Store.absent).player.groundY - 2 ≤
        (initGame 600 Store.absent).player.y + (initGame 600 Store.absent).player.height) :=
  level_never_has_platforms_or_spikes (initGame 600 Store.absent)
    (Reachable.init 600 Store.absent)

/-- Vertical position after the ceiling clamp. -/
lemma ceilingClamp_y (g : Game) :
    (ceilingClamp g).player.y = if g.player.y < 0 then 0 else g.player.y := by
  unfold ceilingClamp
  split <;> rfl

/-- C10: when the logical height `hq` used by the tick is the one from
which `player.groundY` was set (no resize mid-frame; dimensions as the
level has them: non-negative player height, positive ground thickness,
ground line on screen) and the level has no platforms, the ground clamp
of the same tick bounds the player at or above `groundY`, which is
strictly below `hq`; hence the fall-off-screen check `player.y > hq` is
false on every tick, and a tick that hits no obstacle or spike can
never end in the dead state. -/
theorem fall_branch_unreachable (hq : ℚ) (r : Rand) (g : Game)
    (hgs : g.gameState = GState.playing)
    (hpl : g.level.platforms = [])
    (hgy : g.player.groundY = hq - g.level.groundHeight - g.player.height)
    (hh : 0 ≤ g.player.height)
    (hgh : 0 < g.level.groundHeight)
    (hgy0 : 0 ≤ g.player.groundY)
    (hob : obstacleHit (updatePhysics g) = false)
    (hsp : spikeHit (updatePhysics g) = false) :
    (updatePhysics g).player.y ≤ g.player.groundY ∧
    ¬ (updatePhysics g).player.y > hq ∧
    (update hq r g).gameState ≠ GState.dead := by
  have hgy3 : (stepRotation (stepGravity (stepCamera g))).player.groundY
      = g.player.groundY := by simp
  have hh3 : (stepRotation (stepGravity (stepCamera g))).player.height
      = g.player.height := by simp
  have hy4 : (groundClamp (stepRotation (stepGravity (stepCamera g)))).player.y
      ≤ g.player.groundY := by
    unfold groundClamp
    split
    next hcond => simp [le_of_eq hgy3]
    next hcond =>
      rw [not_le] at hcond
      rw [hgy3, hh3] at hcond
      linarith
  have hplat : (groundClamp (stepRotation (stepGravity (stepCamera g)))).level.platforms
      = [] := by simp [hpl]
  have hupd : updatePhysics g
      = ceilingClamp (groundClamp (stepRotation (stepGravity (stepCamera g)))) := by
    unfold updatePhysics
    rw [platformClamp_of_no_platforms _ hplat]
  have hy5 : (updatePhysics g).player.y ≤ g.player.groundY := by
    rw [hupd, ceilingClamp_y]
    split
    · exact hgy0
    · exact hy4
  have hlt : g.player.groundY < hq := by
    rw [hgy]
    linarith
  have hnf : ¬ (updatePhysics g).player.y > hq := by
    rw [not_lt]
    exact le_of_lt (lt_of_le_of_lt hy5 hlt)
  refine ⟨hy5, hnf, ?_⟩
  simp only [update]
  rw [if_pos hgs]
  rw [hob, hsp]
  simp only [Bool.false_eq_true, if_false]
  rw [if_neg hnf]
  split
  · simp
  · simp [hgs]

/-- Witness for C10 at the concrete playing state `gBase` with logical
height 600 (`groundY = 520 = 600 - 50 - 30`). -/
theorem fall_branch_unreachable_witness :
    gBase.gameState = GState.playing ∧
    gBase.level.platforms = [] ∧
    gBase.player.groundY = 600 - gBase.level.groundHeight - gBase.player.height ∧
    (0:ℚ) ≤ gBase.player.height ∧
    (0:ℚ) < gBase.level.groundHeight ∧
    (0:ℚ) ≤ gBase.player.groundY ∧
    obstacleHit (updatePhysics gBase) = false ∧
    spikeHit (updatePhysics gBase) = false ∧
    ((updatePhysics gBase).player.y ≤ gBase.player.groundY ∧
     ¬ (updatePhysics gBase).player.y > 600 ∧
     (update 600 r0 gBase).gameState ≠ GState.dead) := by
  have hob : obstacleHit (updatePhysics gBase) = false := by
    simp [obstacleHit, gBase, lvl0]
  have hsp : spikeHit (updatePhysics gBase) = false := by
    simp [spikeHit, gBase, lvl0]
  refine ⟨rfl, rfl, by norm_num [gBase, pl0, lvl0], by norm_num [gBase, pl0],
          by norm_num [gBase, lvl0], by norm_num [gBase, pl0], hob, hsp, ?_⟩
  exact fall_branch_unreachable 600 r0 gBase rfl rfl
    (by norm_num [gBase, pl0, lvl0]) (by norm_num [gBase, pl0])
    (by norm_num [gBase, lvl0]) (by norm_num [gBase, pl0]) hob hsp

/-- The obstacle used by the C2 counterexample: a tall block overlapping
the player at the frame where the camera reaches the level end. -/
def obsC2 : Obstacle :=
  { x := 105, y := 0, width := 10, height := 1000, color := ("#d0d0d0") }

/-- A playing state one tick away from the level end (width 5) whose
player overlaps `obsC2` on that tick. -/
def gC2 : Game :=
  { gBase with level := { lvl0 with width := 5, obstacles := [obsC2] } }

/-- C2 counterexample: on the tick where `cameraX` (after advancing)
reaches `level.width`, the obstacle scan runs first — `gC2` has
`cameraX = 5 ≥ width = 5` after the advance and the player overlapping
an obstacle, and the tick ends in the dead state, not the win state. -/
theorem win_not_before_obstacle_check_cex :
    gC2.gameState = GState.playing ∧
    (updatePhysics gC2).cameraX ≥ gC2.level.width ∧
    obstacleHit (updatePhysics gC2) = true ∧
    (update 600 r0 gC2).gameState = GState.dead ∧
    (update 600 r0 gC2).gameState ≠ GState.win := by
  have hcam : (updatePhysics gC2).cameraX ≥ gC2.level.width := by
    norm_num [gC2, gBase, lvl0, scrollSpeed]
  have hob : obstacleHit (updatePhysics gC2) = true := by
    norm_num [updatePhysics, stepCamera, stepGravity, stepRotation, groundClamp,
      platformClamp, ceilingClamp, obstacleHit, checkCollision, gC2, gBase, pl0,
      lvl0, obsC2, scrollSpeed, gravity]
  have hdead : (update 600 r0 gC2).gameState = GState.dead := by
    have h1 : gC2.gameState = GState.playing := rfl
    simp only [update]
    rw [if_pos h1, hob, if_pos rfl]
    exact die_gameState r0.death (updatePhysics gC2) (by simp [gC2, gBase])
  exact ⟨rfl, hcam, hob, hdead, by rw [hdead]; decide⟩

/-- C2 corrected: the tick checks every obstacle and spike, and the
fall-off-screen condition, before the win test; `cameraX` reaching
`level.width` transitions to `Win` on that tick only when none of those
checks fired.  (A state reaching the end while overlapping an obstacle
dies instead — see the counterexample.) -/
theorem win_after_collision_checks (hq : ℚ) (r : Rand) (g : Game)
    (h1 : g.gameState = GState.playing)
    (h2 : obstacleHit (updatePhysics g) = false)
    (h3 : spikeHit (updatePhysics g) = false)
    (h4 : ¬ (updatePhysics g).player.y > hq)
    (h5 : (updatePhysics g).cameraX ≥ (updatePhysics g).level.width) :
    (update hq r g).gameState = GState.win := by
  simp only [update]
  rw [if_pos h1, h2, h3]
  simp only [Bool.false_eq_true, if_false]
  rw [if_neg h4, if_pos h5]
  exact win_gameState _

/-- A playing state one tick away from the level end of an empty
level. -/
def gWin : Game :=
  { gBase with level := { lvl0 with width := 5 } }

/-- Witness for the corrected C2: with no obstacle in the way, the tick
that brings `cameraX` to `level.width` ends in the win state. -/
theorem win_after_collision_checks_witness :
    gWin.gameState = GState.playing ∧
    obstacleHit (updatePhysics gWin) = false ∧
    spikeHit (updatePhysics gWin) = false ∧
    ¬ (updatePhysics gWin).player.y > 600 ∧
    (updatePhysics gWin).cameraX ≥ (updatePhysics gWin).level.width ∧
    (update 600 r0 gWin).gameState = GState.win := by
  have hob : obstacleHit (updatePhysics gWin) = false := by
    simp [obstacleHit, gWin, gBase, lvl0]
  have hsp : spikeHit (updatePhysics gWin) = false := by
    simp [spikeHit, gWin, gBase, lvl0]
  have hy : ¬ (updatePhysics gWin).player.y > 600 := by
    norm_num [updatePhysics, stepCamera, stepGravity, stepRotation, groundClamp,
      platformClamp, ceilingClamp, gWin, gBase, pl0, lvl0, scrollSpeed, gravity]
  have hcam : (updatePhysics gWin).cameraX ≥ (updatePhysics gWin).level.width := by
    norm_num [gWin, gBase, lvl0, scrollSpeed]
  exact ⟨rfl, hob, hsp, hy, hcam,
    win_after_collision_checks 600 r0 gWin rfl hob hsp hy hcam⟩

end GeometryDash
